import Mathlib

/-!
Shallow embedding of `src/main.py` (khkhachatur/Home-Alone).

The program is a single linear script: parse CLI arguments, check the
OPENAI_API_KEY environment variable, send the user photo (and an optional
sweater reference photo) to the OpenAI Images API, and save the base64
image payload of the response to the output path.

Effectful Python operations (file reads, the two API endpoints, directory
creation, file writes, prints) are modelled as an explicit event trace;
the outside world (file system contents, codec behaviour, base64 decoding,
API outcomes) is an `Env` record of functions, and each Python function
becomes a Lean function from a trace to a trace paired with an
`Except PyError` result, mirroring Python exception propagation.
Python float arithmetic in `load_and_optionally_resize` is modelled
exactly over naturals: `int(w * (max_side / m))` is `w * max_side / m`
with `Nat` (floor) division.
-/

namespace HomeAlone

/-- Python `bytes` values, as lists of byte values. -/
abbrev PyBytes := List Nat

/-- Provenance of a PIL image buffer: decoded from bytes, converted to RGB,
or resized with the LANCZOS filter. No other image operation occurs anywhere
in `src/main.py`. -/
inductive ImgData where
  | decoded (bytes : PyBytes)
  | toRGB (d : ImgData)
  | resizedLanczos (d : ImgData)
deriving DecidableEq, Repr

/-- A PIL `Image` value: mode string, pixel dimensions, and buffer provenance. -/
structure PILImage where
  mode : String
  width : Nat
  height : Nat
  data : ImgData
deriving DecidableEq, Repr

/-- The in-memory buffer returned by `load_and_optionally_resize`: the processed
image together with the format it was re-encoded in (`img.save(buf, format="PNG")`). -/
structure BytesIOBuf where
  img : PILImage
  format : String
deriving DecidableEq, Repr

/-- Python exceptions that the script can raise. -/
inductive PyError where
  | fileNotFoundError (path : String)
  | unidentifiedImageError (what : String)
  | zeroDivisionError
  | typeError (msg : String)
  | binasciiError
  | valueError (msg : String)
  | runtimeError (msg : String)
  | apiError
  | indexError
deriving DecidableEq, Repr

/-- One observable side effect of a run. -/
inductive Event where
  | openedInput (path : String)
  | apiCall (endpoint : String)
  | madeDirs (dir : String)
  | wroteFile (path : String) (img : PILImage)
  | printed (line : String)
deriving DecidableEq, Repr

/-- The ordered side-effect trace of a run. -/
abbrev Trace := List Event

/-- Files written (via `img.save(output_path)`) in a trace, in order. -/
def writtenFiles (t : Trace) : List (String × PILImage) :=
  t.filterMap fun e => match e with
    | .wroteFile p i => some (p, i)
    | _ => none

/-- Remote API endpoints invoked in a trace, in order. -/
def apiCallsOf (t : Trace) : List String :=
  t.filterMap fun e => match e with
    | .apiCall s => some s
    | _ => none

/-- Input files opened (successfully) in a trace, in order. -/
def openedInputsOf (t : Trace) : List String :=
  t.filterMap fun e => match e with
    | .openedInput p => some p
    | _ => none

/-- One `data` element of an OpenAI Images API response. -/
structure ApiImageDatum where
  b64_json : Option String
  url : Option String
deriving DecidableEq, Repr

/-- An OpenAI Images API response object. -/
structure ApiImagesResult where
  data : List ApiImageDatum
deriving DecidableEq, Repr

/-- Outcome of one remote API call: the HTTP call raises, or returns a response. -/
inductive ApiOutcome where
  | raises
  | returns (result : ApiImagesResult)
deriving DecidableEq, Repr

/-- The outside world: environment variables, file-system contents, the image
codec, base64 decoding, and the (fixed, single-shot) outcome of each of the two
OpenAI endpoints the script can hit. -/
structure Env where
  getenv : String → Option String
  fs : String → Option PyBytes
  decode : PyBytes → Option PILImage
  b64decode : String → Option PyBytes
  images_edit : ApiOutcome
  images_generate : ApiOutcome

/-- `DEFAULT_ENGINE` from src/main.py. -/
def DEFAULT_ENGINE : String := "gpt-image-1"

/-- `POSTER_SIZE` from src/main.py. -/
def POSTER_SIZE : String := "1024x1536"

/-- `build_home_alone_prompt` from src/main.py: the f-string, after
`.strip()`, with `name_part` substituted. -/
def build_home_alone_prompt (user_name : Option String := none) : String :=
  let name_part := match user_name with
    | some u => u ++ "\x27s face"
    | none => "the person’s face"
  "Turn " ++ name_part ++ " into the star of the classic 1990 movie poster \"Home Alone\".\n\nRequirements:\n- Keep " ++ name_part ++ " clearly recognizable and realistic.\n- Preserve facial expression and main facial structure.\n- Change the clothes to the iconic thick red knitted sweater from the reference image:\n  heavy knit, slightly loose, bright red with darker red/black fibers in the threads.\n- Show the character in a centered portrait composition from chest up.\n\nBackground and layout:\n- Replace the background with a flat deep blue, like the original Home Alone poster.\n- At the top of the image, add the movie title text:\n  At very top: small white caps text: \"FROM JOHN HUGHES\".\n  Under it, big yellow text: \"HOME\" and \"ALONe\" with a red house icon between HOME and ALONe.\n- The logo must be sharp, centered, and readable.\n- Add very subtle winter / Christmas mood, soft film grain.\n\nOverall style:\n- High-quality 1990 movie poster.\n- Bright, clean colors, no blur or distortion.\n- Photorealistic face, cinematic lighting, sharp details."

/-- `build_midjourney_prompt` from src/main.py: the raw string, after `.strip()`. -/
def build_midjourney_prompt : String :=
  "/imagine prompt: A modern recreation of the classic \"Home Alone\" movie poster.\n\nCenter frame: a close-up portrait of the user, hands on cheeks in a shocked expression,\nwearing a thick bright red knitted sweater with a chunky texture, similar to 1990s winter knitwear.\nThe sweater has a deep red color with darker dyed fibers.\n\nBackground: solid deep blue poster background.\n\nAt the top, clean movie-style typography:\nsmall white text \"FROM JOHN HUGHES\" above,\nbelow it the title \"HOME\" [yellow], then a red house icon, then \"ALONe\" [yellow].\nCrisp, readable text aligned and centered like a Hollywood movie poster.\n\nLighting: soft studio light, slightly frontal, subtle shadows, cinematic sharpness.\nStyle: photorealistic 8K, movie poster, high contrast, rich colors, winter holiday mood.\n--ar 2:3 --v 6"

/-- Prefix of a path's character list up to and including its last slash
(Python `p[:p.rfind(sep) + 1]`); empty when the path has no slash. -/
def uptoLastSlash : List Char → List Char
  | [] => []
  | c :: rest =>
    if '/' ∈ rest then c :: uptoLastSlash rest
    else if c = '/' then ['/'] else []

/-- `os.path.dirname` for POSIX paths: take the prefix up to the last slash;
if that head is nonempty and not all slashes, strip its trailing slashes. -/
def dirname (p : String) : String :=
  let head := uptoLastSlash p.data
  if head.any (fun c => c ≠ '/') then
    String.mk ((head.reverse.dropWhile (fun c => c = '/')).reverse)
  else String.mk head

/-- `load_and_optionally_resize` from src/main.py: open the image at `path`
(raising `FileNotFoundError` when the path does not exist and an
`UnidentifiedImageError` when the bytes do not decode), convert to RGB,
compute `scale = min(1.0, max_side / max(w, h))` (a `ZeroDivisionError` on a
zero-sized image), resize to `(int(w * scale), int(h * scale))` with LANCZOS
when `scale < 1.0`, and return the image re-encoded as a PNG buffer. -/
def load_and_optionally_resize (env : Env) (t : Trace) (path : String)
    (max_side : Nat := 1536) : Trace × Except PyError BytesIOBuf :=
  match env.fs path with
  | none => (t, .error (.fileNotFoundError path))
  | some bytes =>
    match env.decode bytes with
    | none => (t, .error (.unidentifiedImageError path))
    | some img0 =>
      let t := t ++ [.openedInput path]
      let img1 : PILImage :=
        { mode := "RGB", width := img0.width, height := img0.height,
          data := .toRGB img0.data }
      let m := max img1.width img1.height
      if m = 0 then (t, .error .zeroDivisionError)
      else if max_side < m then
        (t, .ok { img := { mode := "RGB",
                           width := img1.width * max_side / m,
                           height := img1.height * max_side / m,
                           data := .resizedLanczos img1.data },
                  format := "PNG" })
      else (t, .ok { img := img1, format := "PNG" })

/-- `save_base64_image` from src/main.py: base64-decode the payload
(`base64.b64decode(None)` raises a `TypeError`, a malformed payload a
`binascii.Error`), decode the bytes as an image, `os.makedirs(dirname, exist_ok=True)`
(which raises `FileNotFoundError` when the dirname is the empty string),
save the image to `output_path`, and print the confirmation line. -/
def save_base64_image (env : Env) (t : Trace) (b64_data : Option String)
    (output_path : String) : Trace × Except PyError Unit :=
  match b64_data with
  | none => (t, .error (.typeError
      "argument should be a bytes-like object or ASCII string, not NoneType"))
  | some s =>
    match env.b64decode s with
    | none => (t, .error .binasciiError)
    | some image_bytes =>
      match env.decode image_bytes with
      | none => (t, .error (.unidentifiedImageError output_path))
      | some img =>
        let d := dirname output_path
        if d = "" then (t, .error (.fileNotFoundError ""))
        else
          (t ++ [.madeDirs d, .wroteFile output_path img,
                 .printed ("✅ Saved generated poster to: " ++ output_path)],
           .ok ())

/-- `generate_home_alone_poster_openai` from src/main.py: build the prompt;
for `gpt-image-1`, load (and optionally downscale) the user photo and the
optional sweater reference, call `client.images.edit`, and save
`result.data[0].b64_json`; for `dall-e-3`, call `client.images.generate` and
save the base64 payload when it is truthy, otherwise print the URL fallback
messages; any other engine raises a `ValueError`. -/
def generate_home_alone_poster_openai (env : Env) (t : Trace)
    (user_image_path : String) (sweater_ref_path : Option String)
    (engine : String) (output_path : String)
    (user_name : Option String := none) : Trace × Except PyError Unit :=
  let _prompt := build_home_alone_prompt user_name
  if engine = "gpt-image-1" then
    match load_and_optionally_resize env t user_image_path with
    | (t, .error e) => (t, .error e)
    | (t, .ok user_buf) =>
      let loaded : Trace × Except PyError (List BytesIOBuf) :=
        match sweater_ref_path with
        | none => (t, .ok [user_buf])
        | some p =>
          match load_and_optionally_resize env t p with
          | (t, .error e) => (t, .error e)
          | (t, .ok sweater_buf) => (t, .ok [user_buf, sweater_buf])
      match loaded with
      | (t, .error e) => (t, .error e)
      | (t, .ok _files) =>
        let t := t ++ [.apiCall "images.edit"]
        match env.images_edit with
        | .raises => (t, .error .apiError)
        | .returns result =>
          match result.data.head? with
          | none => (t, .error .indexError)
          | some d => save_base64_image env t d.b64_json output_path
  else if engine = "dall-e-3" then
    let t := t ++ [.apiCall "images.generate"]
    match env.images_generate with
    | .raises => (t, .error .apiError)
    | .returns result =>
      match result.data.head? with
      | none => (t, .error .indexError)
      | some d =>
        if (match d.b64_json with | some s => s != "" | none => false) then
          save_base64_image env t d.b64_json output_path
        else
          (t ++ [.printed ("Got URL from DALL·E 3: " ++ d.url.getD "None"),
                 .printed "Download this URL manually or add requests.get(...) code here."],
           .ok ())
  else
    (t, .error (.valueError
      "Unsupported engine. Use \x27gpt-image-1\x27 or \x27dall-e-3\x27."))

/-- One `parser.add_argument` call of `main` in src/main.py. -/
structure ArgSpec where
  flag : String
  required : Bool
  storeTrue : Bool
  dflt : Option String
  choices : Option (List String)
  help : String
deriving DecidableEq, Repr

/-- The six `add_argument` calls of `main` in src/main.py, in order. -/
def mainArgumentSpecs : List ArgSpec :=
  [ { flag := "--input", required := true, storeTrue := false, dflt := none,
      choices := none, help := "Path to the user image (face visible)." },
    { flag := "--sweater", required := false, storeTrue := false, dflt := none,
      choices := none,
      help := "Path to the red sweater reference image (optional but recommended for gpt-image-1)." },
    { flag := "--output", required := false, storeTrue := false,
      dflt := some "output/home_alone_poster.png", choices := none,
      help := "Where to save the final poster image." },
    { flag := "--engine", required := false, storeTrue := false,
      dflt := some DEFAULT_ENGINE, choices := some ["gpt-image-1", "dall-e-3"],
      help := "Which OpenAI image model to use." },
    { flag := "--user-name", required := false, storeTrue := false, dflt := none,
      choices := none, help := "Optional name used only inside the prompt (for personalization)." },
    { flag := "--show-midjourney-prompt", required := false, storeTrue := true,
      dflt := none, choices := none,
      help := "Print a ready Midjourney prompt you can paste into Discord." } ]

/-- The parsed command-line arguments of `main` (defaults as in the parser). -/
structure Args where
  input : String
  sweater : Option String := none
  output : String := "output/home_alone_poster.png"
  engine : String := DEFAULT_ENGINE
  user_name : Option String := none
  show_midjourney_prompt : Bool := false
deriving DecidableEq, Repr

/-- The three `print` calls guarded by `args.show_midjourney_prompt` in `main`. -/
def introTrace (show_midjourney_prompt : Bool) : Trace :=
  if show_midjourney_prompt then
    [.printed "------ Midjourney Prompt (copy & paste into Discord) ------\n",
     .printed build_midjourney_prompt,
     .printed "\n-----------------------------------------------------------\n"]
  else []

/-- `main` from src/main.py, after argument parsing: optionally print the
Midjourney prompt, read `OPENAI_API_KEY` (raising a `RuntimeError` when it is
unset or falsy), construct the client, and run the generation pipeline. -/
def main (env : Env) (args : Args) : Trace × Except PyError Unit :=
  let t := introTrace args.show_midjourney_prompt
  match env.getenv "OPENAI_API_KEY" with
  | none => (t, .error (.runtimeError "OPENAI_API_KEY environment variable is not set."))
  | some api_key =>
    if api_key = "" then
      (t, .error (.runtimeError "OPENAI_API_KEY environment variable is not set."))
    else
      generate_home_alone_poster_openai env t args.input args.sweater
        args.engine args.output args.user_name

/-! ### Concrete test environments -/

/-- Bytes of the user photo file in the test environments. -/
def userBytes : PyBytes := [1, 2, 3]

/-- A concrete base64 payload string returned by the test API. -/
def payloadB64 : String := "cG9zdGVyLXBheWxvYWQ="

/-- The bytes the test base64 decoder yields for a payload string. -/
def payloadBytes : PyBytes := payloadB64.data.map Char.toNat

/-- Test codec: every byte string decodes to a 1024x1536 RGB image whose
buffer records exactly the bytes it was decoded from. -/
def stdDecode : PyBytes → Option PILImage :=
  fun b => some { mode := "RGB", width := 1024, height := 1536, data := .decoded b }

/-- Test environment variables: only OPENAI_API_KEY is set. -/
def keyedGetenv : String → Option String :=
  fun v => if v = "OPENAI_API_KEY" then some "sk-test" else none

/-- Environment for a fully successful gpt-image-1 run: the user photo exists,
the key is set, and `images.edit` returns one datum carrying a base64 payload. -/
def envHappyEdit : Env :=
  { getenv := keyedGetenv,
    fs := fun p => if p = "me.png" then some userBytes else none,
    decode := stdDecode,
    b64decode := fun s => some (s.data.map Char.toNat),
    images_edit := .returns { data := [{ b64_json := some payloadB64, url := none }] },
    images_generate := .raises }

/-- Default-argument run on the user photo `me.png`. -/
def args1 : Args := { input := "me.png" }

/-- Default-argument run on `me.png` with `--show-midjourney-prompt` set. -/
def argsShow : Args := { input := "me.png", show_midjourney_prompt := true }

/-- The image the test codec assigns to the decoded API payload. -/
def payloadImg : PILImage :=
  { mode := "RGB", width := 1024, height := 1536, data := .decoded payloadBytes }

/-- Environment where `images.generate` answers with a URL-only datum
(no base64 payload) and no input file exists at all. -/
def envUrlOnly : Env :=
  { getenv := keyedGetenv,
    fs := fun _ => none,
    decode := stdDecode,
    b64decode := fun s => some (s.data.map Char.toNat),
    images_edit := .raises,
    images_generate := .returns
      { data := [{ b64_json := none, url := some "https://example.com/poster.png" }] } }

/-- dall-e-3 run arguments on a missing input path. -/
def argsE3 : Args := { input := "missing.png", engine := "dall-e-3" }

/-- Environment where the input photo does not exist but `images.generate`
returns a usable base64 payload. -/
def envGenHappy : Env :=
  { getenv := keyedGetenv,
    fs := fun _ => none,
    decode := stdDecode,
    b64decode := fun s => some (s.data.map Char.toNat),
    images_edit := .raises,
    images_generate := .returns { data := [{ b64_json := some payloadB64, url := none }] } }

/-- Environment with no environment variables set at all. -/
def envKeyless : Env :=
  { getenv := fun _ => none,
    fs := fun p => if p = "me.png" then some userBytes else none,
    decode := stdDecode,
    b64decode := fun s => some (s.data.map Char.toNat),
    images_edit := .returns { data := [{ b64_json := some payloadB64, url := none }] },
    images_generate := .raises }

/-- Environment for a large 3000x2000 source image: the codec reports those
dimensions for the file at `big.png`. -/
def envBig : Env :=
  { getenv := keyedGetenv,
    fs := fun p => if p = "big.png" then some [9] else none,
    decode := fun b => some { mode := "L", width := 3000, height := 2000, data := .decoded b },
    b64decode := fun s => some (s.data.map Char.toNat),
    images_edit := .raises,
    images_generate := .raises }

/-- Environment where the user photo exists but `images.edit` answers with a
datum carrying no base64 payload at all. -/
def envEditNoPayload : Env :=
  { getenv := keyedGetenv,
    fs := fun p => if p = "me.png" then some userBytes else none,
    decode := stdDecode,
    b64decode := fun s => some (s.data.map Char.toNat),
    images_edit := .returns { data := [{ b64_json := none, url := none }] },
    images_generate := .raises }

/-! ### Helper lemmas -/

lemma writtenFiles_append (s u : Trace) :
    writtenFiles (s ++ u) = writtenFiles s ++ writtenFiles u := by
  simp [writtenFiles]

lemma apiCallsOf_append (s u : Trace) :
    apiCallsOf (s ++ u) = apiCallsOf s ++ apiCallsOf u := by
  simp [apiCallsOf]

lemma openedInputsOf_append (s u : Trace) :
    openedInputsOf (s ++ u) = openedInputsOf s ++ openedInputsOf u := by
  simp [openedInputsOf]

lemma writtenFiles_introTrace (b : Bool) : writtenFiles (introTrace b) = [] := by
  cases b <;> rfl

lemma apiCallsOf_introTrace (b : Bool) : apiCallsOf (introTrace b) = [] := by
  cases b <;> rfl

lemma openedInputsOf_introTrace (b : Bool) : openedInputsOf (introTrace b) = [] := by
  cases b <;> rfl

/-- The loader only ever appends (at most) the open event to the trace. -/
lemma load_fst (env : Env) (t : Trace) (path : String) (ms : Nat) :
    (load_and_optionally_resize env t path ms).1 = t
    ∨ (load_and_optionally_resize env t path ms).1 = t ++ [.openedInput path] := by
  unfold load_and_optionally_resize
  split
  · exact Or.inl rfl
  · split
    · exact Or.inl rfl
    · dsimp only
      split
      · exact Or.inr rfl
      · split
        · exact Or.inr rfl
        · exact Or.inr rfl

/-- The loader writes no files and makes no API calls. -/
lemma load_trace_clean (env : Env) (t : Trace) (path : String) (ms : Nat) :
    writtenFiles (load_and_optionally_resize env t path ms).1 = writtenFiles t
    ∧ apiCallsOf (load_and_optionally_resize env t path ms).1 = apiCallsOf t := by
  rcases load_fst env t path ms with h | h <;>
    simp [h, writtenFiles_append, apiCallsOf_append, writtenFiles, apiCallsOf]

/-- Full behaviour of `load_and_optionally_resize` on a readable, decodable,
nonempty image: the call succeeds with a PNG buffer in RGB mode, leaves the
dimensions alone when the longest side already fits in `max_side = 1536`,
otherwise floor-scales both dimensions by `1536 / max(w, h)`; it never
upscales and the longest output side is at most 1536. -/
lemma load_spec (env : Env) (t : Trace) (path : String) (ub : PyBytes) (ui : PILImage)
    (hfs : env.fs path = some ub) (hdec : env.decode ub = some ui)
    (hpos : 0 < max ui.width ui.height) :
    ∃ buf : BytesIOBuf,
      load_and_optionally_resize env t path = (t ++ [.openedInput path], .ok buf)
      ∧ buf.format = "PNG"
      ∧ buf.img.mode = "RGB"
      ∧ (max ui.width ui.height ≤ 1536 →
          buf.img.width = ui.width ∧ buf.img.height = ui.height)
      ∧ (1536 < max ui.width ui.height →
          buf.img.width = ui.width * 1536 / max ui.width ui.height
          ∧ buf.img.height = ui.height * 1536 / max ui.width ui.height)
      ∧ buf.img.width ≤ ui.width
      ∧ buf.img.height ≤ ui.height
      ∧ max buf.img.width buf.img.height ≤ 1536 := by
  have hm0 : ¬ (max ui.width ui.height = 0) := Nat.pos_iff_ne_zero.mp hpos
  unfold load_and_optionally_resize
  simp only [hfs, hdec]
  by_cases hlt : 1536 < max ui.width ui.height
  · rw [if_neg hm0, if_pos hlt]
    have hwb : ui.width * 1536 / max ui.width ui.height ≤ ui.width := by
      calc ui.width * 1536 / max ui.width ui.height
          ≤ ui.width * max ui.width ui.height / max ui.width ui.height :=
            Nat.div_le_div_right (Nat.mul_le_mul_left _ (le_of_lt hlt))
        _ = ui.width := Nat.mul_div_cancel _ hpos
    have hhb : ui.height * 1536 / max ui.width ui.height ≤ ui.height := by
      calc ui.height * 1536 / max ui.width ui.height
          ≤ ui.height * max ui.width ui.height / max ui.width ui.height :=
            Nat.div_le_div_right (Nat.mul_le_mul_left _ (le_of_lt hlt))
        _ = ui.height := Nat.mul_div_cancel _ hpos
    have hw1536 : ui.width * 1536 / max ui.width ui.height ≤ 1536 := by
      calc ui.width * 1536 / max ui.width ui.height
          ≤ max ui.width ui.height * 1536 / max ui.width ui.height :=
            Nat.div_le_div_right (Nat.mul_le_mul_right _ (le_max_left _ _))
        _ = 1536 := by rw [Nat.mul_comm]; exact Nat.mul_div_cancel _ hpos
    have hh1536 : ui.height * 1536 / max ui.width ui.height ≤ 1536 := by
      calc ui.height * 1536 / max ui.width ui.height
          ≤ max ui.width ui.height * 1536 / max ui.width ui.height :=
            Nat.div_le_div_right (Nat.mul_le_mul_right _ (le_max_right _ _))
        _ = 1536 := by rw [Nat.mul_comm]; exact Nat.mul_div_cancel _ hpos
    refine ⟨_, rfl, rfl, rfl, ?_, fun _ => ⟨rfl, rfl⟩, hwb, hhb, max_le hw1536 hh1536⟩
    intro hle
    exact absurd hlt (not_lt_of_le hle)
  · rw [if_neg hm0, if_neg hlt]
    exact ⟨_, rfl, rfl, rfl, fun _ => ⟨rfl, rfl⟩, fun h => absurd h hlt,
      le_refl _, le_refl _, le_of_not_lt hlt⟩

/-- Full behaviour of `save_base64_image` on a decodable payload: an output
path without a directory component makes `os.makedirs("")` raise before any
write; otherwise the parent directory is created, the decoded image is
written, and the confirmation line is printed, in that order. -/
lemma save_spec (env : Env) (t : Trace) (s : String) (bs : PyBytes) (img : PILImage)
    (p : String) (hb : env.b64decode s = some bs) (hd : env.decode bs = some img) :
    (dirname p = "" →
      save_base64_image env t (some s) p = (t, .error (.fileNotFoundError "")))
    ∧ (dirname p ≠ "" →
      save_base64_image env t (some s) p
        = (t ++ [.madeDirs (dirname p), .wroteFile p img,
                 .printed ("✅ Saved generated poster to: " ++ p)], .ok ())) := by
  unfold save_base64_image
  simp only [hb, hd]
  constructor
  · intro h; rw [if_pos h]
  · intro h; rw [if_neg h]

/-- `main` reduces to the generation pipeline once the API key check passes. -/
lemma main_unfold (env : Env) (args : Args) (k : String)
    (hk : env.getenv "OPENAI_API_KEY" = some k) (hk' : k ≠ "") :
    main env args
      = generate_home_alone_poster_openai env (introTrace args.show_midjourney_prompt)
          args.input args.sweater args.engine args.output args.user_name := by
  unfold main
  rw [hk]
  dsimp only
  rw [if_neg hk']

/-- Appending one API-call event leaves the written-file view unchanged. -/
lemma writtenFiles_apiCall_append (l : Trace) (s : String) :
    writtenFiles (l ++ [Event.apiCall s]) = writtenFiles l := by
  rw [writtenFiles_append]
  exact List.append_nil _

/-- Appending one API-call event appends exactly that endpoint. -/
lemma apiCallsOf_apiCall_append (l : Trace) (s : String) :
    apiCallsOf (l ++ [Event.apiCall s]) = apiCallsOf l ++ [s] := by
  rw [apiCallsOf_append]
  rfl

/-- The saver never performs API calls. -/
lemma save_api_clean (env : Env) (t : Trace) (b : Option String) (p : String) :
    apiCallsOf (save_base64_image env t b p).1 = apiCallsOf t := by
  unfold save_base64_image
  split
  · rfl
  · split
    · rfl
    · split
      · rfl
      · dsimp only
        split
        · rfl
        · rw [apiCallsOf_append]
          exact List.append_nil _

/-- Every run of the generation pipeline makes at most one API call,
whatever the engine and whatever the outside world answers. -/
lemma generate_api_once (env : Env) (t : Trace) (uip : String)
    (swp : Option String) (engine : String) (out : String) (un : Option String) :
    (apiCallsOf (generate_home_alone_poster_openai env t uip swp engine out un).1).length
      ≤ (apiCallsOf t).length + 1 := by
  simp only [generate_home_alone_poster_openai]
  by_cases h1 : engine = "gpt-image-1"
  · rw [if_pos h1]
    rcases hl : load_and_optionally_resize env t uip with ⟨t1, r1⟩
    have ht1 := load_trace_clean env t uip 1536
    rw [hl] at ht1
    cases r1 with
    | error e =>
      simp only [hl]
      rw [ht1.2]
      exact Nat.le_succ _
    | ok buf =>
      cases swp with
      | none =>
        cases ha : env.images_edit with
        | raises =>
          simp only [hl, ha]
          rw [apiCallsOf_apiCall_append, ht1.2]
          simp
        | returns result =>
          cases hd : result.data.head? with
          | none =>
            simp only [hl, ha, hd]
            rw [apiCallsOf_apiCall_append, ht1.2]
            simp
          | some d =>
            simp only [hl, ha, hd]
            rw [save_api_clean, apiCallsOf_apiCall_append, ht1.2]
            simp
      | some p =>
        rcases hl2 : load_and_optionally_resize env t1 p with ⟨t2, r2⟩
        have ht2 := load_trace_clean env t1 p 1536
        rw [hl2] at ht2
        cases r2 with
        | error e =>
          simp only [hl, hl2]
          rw [ht2.2, ht1.2]
          exact Nat.le_succ _
        | ok buf2 =>
          cases ha : env.images_edit with
          | raises =>
            simp only [hl, hl2, ha]
            rw [apiCallsOf_apiCall_append, ht2.2, ht1.2]
            simp
          | returns result =>
            cases hd : result.data.head? with
            | none =>
              simp only [hl, hl2, ha, hd]
              rw [apiCallsOf_apiCall_append, ht2.2, ht1.2]
              simp
            | some d =>
              simp only [hl, hl2, ha, hd]
              rw [save_api_clean, apiCallsOf_apiCall_append, ht2.2, ht1.2]
              simp
  · rw [if_neg h1]
    by_cases h2 : engine = "dall-e-3"
    · rw [if_pos h2]
      cases ha : env.images_generate with
      | raises =>
        simp only [ha]
        rw [apiCallsOf_apiCall_append]
        simp
      | returns result =>
        cases hd : result.data.head? with
        | none =>
          simp only [ha, hd]
          rw [apiCallsOf_apiCall_append]
          simp
        | some d =>
          simp only [ha, hd]
          split
          · rw [save_api_clean, apiCallsOf_apiCall_append]
            simp
          · rw [apiCallsOf_append, apiCallsOf_apiCall_append]
            simp [apiCallsOf]
    · rw [if_neg h2]
      exact Nat.le_succ _

/-- In the gpt-image-1 path, an API call that raises, an empty response data
list, or a first datum with no base64 payload is fatal: the result is an
error (apiError, IndexError, or the b64decode(None) TypeError) and no file
is ever written. -/
lemma generate_gpt_fatal (env : Env) (t : Trace) (uip : String)
    (swp : Option String) (out : String) (un : Option String)
    (h : env.images_edit = .raises
       ∨ env.images_edit = .returns { data := [] }
       ∨ ∃ du rest, env.images_edit
           = .returns { data := { b64_json := none, url := du } :: rest }) :
    (∃ e, (generate_home_alone_poster_openai env t uip swp "gpt-image-1" out un).2
        = .error e)
    ∧ writtenFiles (generate_home_alone_poster_openai env t uip swp "gpt-image-1" out un).1
        = writtenFiles t := by
  simp only [generate_home_alone_poster_openai, if_true]
  rcases hl : load_and_optionally_resize env t uip with ⟨t1, r1⟩
  have ht1 := load_trace_clean env t uip 1536
  rw [hl] at ht1
  cases r1 with
  | error e =>
    simp only [hl]
    exact ⟨⟨e, rfl⟩, ht1.1⟩
  | ok buf =>
    cases swp with
    | none =>
      rcases h with h | h | ⟨du, rest, h⟩ <;>
        simp only [hl, h, List.head?, save_base64_image]
      · exact ⟨⟨.apiError, rfl⟩, by rw [writtenFiles_apiCall_append, ht1.1]⟩
      · exact ⟨⟨.indexError, rfl⟩, by rw [writtenFiles_apiCall_append, ht1.1]⟩
      · exact ⟨⟨.typeError
            "argument should be a bytes-like object or ASCII string, not NoneType", rfl⟩,
          by rw [writtenFiles_apiCall_append, ht1.1]⟩
    | some p =>
      rcases hl2 : load_and_optionally_resize env t1 p with ⟨t2, r2⟩
      have ht2 := load_trace_clean env t1 p 1536
      rw [hl2] at ht2
      cases r2 with
      | error e =>
        simp only [hl, hl2]
        exact ⟨⟨e, rfl⟩, by rw [ht2.1, ht1.1]⟩
      | ok buf2 =>
        rcases h with h | h | ⟨du, rest, h⟩ <;>
          simp only [hl, hl2, h, List.head?, save_base64_image]
        · exact ⟨⟨.apiError, rfl⟩, by rw [writtenFiles_apiCall_append, ht2.1, ht1.1]⟩
        · exact ⟨⟨.indexError, rfl⟩, by rw [writtenFiles_apiCall_append, ht2.1, ht1.1]⟩
        · exact ⟨⟨.typeError
              "argument should be a bytes-like object or ASCII string, not NoneType", rfl⟩,
            by rw [writtenFiles_apiCall_append, ht2.1, ht1.1]⟩

/-- In the dall-e-3 path, an API call that raises propagates as a fatal error
right after the single `images.generate` call. -/
lemma generate_e3_raises (env : Env) (t : Trace) (uip : String)
    (swp : Option String) (out : String) (un : Option String)
    (h : env.images_generate = .raises) :
    generate_home_alone_poster_openai env t uip swp "dall-e-3" out un
      = (t ++ [.apiCall "images.generate"], .error .apiError) := by
  simp only [generate_home_alone_poster_openai, if_true]
  rw [if_neg (by decide)]
  simp only [h]

/-- In the dall-e-3 path, a response whose first datum has no base64 payload
takes the URL fallback: the two messages are printed and the run ends
normally, without writing anything. -/
lemma generate_e3_url_only (env : Env) (t : Trace) (uip : String)
    (swp : Option String) (out : String) (un : Option String)
    (u : Option String) (rest : List ApiImageDatum)
    (h : env.images_generate = .returns { data := { b64_json := none, url := u } :: rest }) :
    generate_home_alone_poster_openai env t uip swp "dall-e-3" out un
      = (t ++ [.apiCall "images.generate"]
           ++ [.printed ("Got URL from DALL·E 3: " ++ u.getD "None"),
               .printed "Download this URL manually or add requests.get(...) code here."],
         .ok ()) := by
  simp only [generate_home_alone_poster_openai, if_true]
  rw [if_neg (by decide)]
  simp only [h, List.head?]
  rfl

/-! ### Claim theorems -/

/-- C1 (counterexample): the claim says the program locally removes the
background from the generated image and composites it onto a template, so
that "the written output is the composited template, not the raw API
result". On a concrete successful default run, the one file written is the
image decoded straight from the API's base64 payload — its buffer is
literally `ImgData.decoded payloadBytes`, with no masking or compositing
operation applied — so the written output IS the raw API result. -/
theorem c1_counterexample :
    (main envHappyEdit args1).2 = .ok ()
    ∧ writtenFiles (main envHappyEdit args1).1
        = [("output/home_alone_poster.png", payloadImg)]
    ∧ payloadImg = { mode := "RGB", width := 1024, height := 1536,
                     data := .decoded payloadBytes }
    ∧ envHappyEdit.b64decode payloadB64 = some payloadBytes := ⟨rfl, rfl, rfl, rfl⟩

/-- C1 (amended): for every run that obtains a generated image from the
remote API — the gpt-image-1 path (with or without a sweater reference,
given readable inputs) and the dall-e-3 path with a truthy base64 payload —
the program writes exactly one file: the image decoded from the raw API
payload, unchanged; no background removal and no compositing occurs between
the API response and the write. -/
theorem c1_raw_output (env : Env) (args : Args) (k : String)
    (hk : env.getenv "OPENAI_API_KEY" = some k) (hk' : k ≠ "")
    (payload : String) (du : Option String) (rest : List ApiImageDatum)
    (pb : PyBytes) (hb : env.b64decode payload = some pb)
    (pimg : PILImage) (hpd : env.decode pb = some pimg)
    (hdir : dirname args.output ≠ "")
    (hrun :
      (args.engine = "gpt-image-1"
        ∧ env.images_edit
            = .returns { data := { b64_json := some payload, url := du } :: rest }
        ∧ (∃ ub ui, env.fs args.input = some ub ∧ env.decode ub = some ui
            ∧ 0 < max ui.width ui.height)
        ∧ (args.sweater = none
           ∨ ∃ sp sb si, args.sweater = some sp ∧ env.fs sp = some sb
               ∧ env.decode sb = some si ∧ 0 < max si.width si.height))
      ∨ (args.engine = "dall-e-3" ∧ payload ≠ ""
        ∧ env.images_generate
            = .returns { data := { b64_json := some payload, url := du } :: rest })) :
    (main env args).2 = .ok ()
    ∧ writtenFiles (main env args).1 = [(args.output, pimg)] := by
  rw [main_unfold env args k hk hk']
  rcases hrun with ⟨heng, hapi, ⟨ub, ui, hfs, hdec, hpos⟩, hsw⟩ | ⟨heng, hne, hapi⟩
  · rw [heng]
    obtain ⟨buf, hload, -, -, -, -, -, -, -⟩ :=
      load_spec env (introTrace args.show_midjourney_prompt) args.input ub ui hfs hdec hpos
    rcases hsw with hsw | ⟨sp, sb, si, hsw, hsfs, hsdec, hspos⟩
    · have hsave := (save_spec env
        ((introTrace args.show_midjourney_prompt ++ [.openedInput args.input])
          ++ [.apiCall "images.edit"]) payload pb pimg args.output hb hpd).2 hdir
      rw [hsw]
      simp only [generate_home_alone_poster_openai, if_true]
      simp only [hload, hapi, List.head?]
      rw [hsave]
      refine ⟨rfl, ?_⟩
      simp only [writtenFiles_append, writtenFiles_introTrace]
      rfl
    · obtain ⟨sbuf, hload2, -, -, -, -, -, -, -⟩ :=
        load_spec env (introTrace args.show_midjourney_prompt ++ [.openedInput args.input])
          sp sb si hsfs hsdec hspos
      have hsave := (save_spec env
        (((introTrace args.show_midjourney_prompt ++ [.openedInput args.input])
           ++ [.openedInput sp]) ++ [.apiCall "images.edit"]) payload pb pimg
         args.output hb hpd).2 hdir
      rw [hsw]
      simp only [generate_home_alone_poster_openai, if_true]
      simp only [hload, hload2, hapi, List.head?]
      rw [hsave]
      refine ⟨rfl, ?_⟩
      simp only [writtenFiles_append, writtenFiles_introTrace]
      rfl
  · rw [heng]
    have hbne : (payload != "") = true := by simp [hne]
    have hsave := (save_spec env
      (introTrace args.show_midjourney_prompt ++ [.apiCall "images.generate"])
      payload pb pimg args.output hb hpd).2 hdir
    simp only [generate_home_alone_poster_openai, if_true]
    rw [if_neg (by decide)]
    simp only [hapi, List.head?]
    rw [if_pos hbne, hsave]
    refine ⟨rfl, ?_⟩
    simp only [writtenFiles_append, writtenFiles_introTrace]
    rfl

/-- C1 (witness): the amended statement instantiated on the concrete
successful gpt-image-1 run. -/
theorem c1_witness :
    (main envHappyEdit args1).2 = .ok ()
    ∧ writtenFiles (main envHappyEdit args1).1
        = [("output/home_alone_poster.png", payloadImg)] :=
  c1_raw_output envHappyEdit args1 "sk-test" rfl (by decide)
    payloadB64 none [] payloadBytes rfl payloadImg rfl (by decide)
    (Or.inl ⟨rfl, rfl,
      ⟨userBytes, { mode := "RGB", width := 1024, height := 1536, data := .decoded userBytes },
        rfl, rfl, by decide⟩,
      Or.inl rfl⟩)

/-- C4 (counterexample): the claim says that when the API returns no usable
image payload the run fails with a fatal error and no output. In the
dall-e-3 path, a response carrying only a URL (no base64 payload) makes the
program print the URL and terminate normally — no error is raised at all
(and no output file is produced). -/
theorem c4_counterexample :
    envUrlOnly.images_generate
      = .returns { data := [{ b64_json := none,
                              url := some "https://example.com/poster.png" }] }
    ∧ (main envUrlOnly argsE3).2 = .ok ()
    ∧ writtenFiles (main envUrlOnly argsE3).1 = []
    ∧ (main envUrlOnly argsE3).1
        = [.apiCall "images.generate",
           .printed "Got URL from DALL·E 3: https://example.com/poster.png",
           .printed "Download this URL manually or add requests.get(...) code here."] :=
  ⟨rfl, rfl, rfl, rfl⟩

/-- C4 (amended): an API call that errors is fatal in both engine paths —
the exception propagates, nothing is retried (every run makes at most one
API call), and no output file is produced — and in the gpt-image-1 path a
response with no usable image payload (empty data list, or a first datum
without base64 payload) is likewise fatal with no output; only the
dall-e-3 path deviates: a URL-only datum makes the run print the URL and
terminate normally, without an error and without writing an output file. -/
theorem c4_fatal_api (env : Env) (args : Args) (k : String)
    (hk : env.getenv "OPENAI_API_KEY" = some k) (hk' : k ≠ "") :
    (args.engine = "gpt-image-1" →
      (env.images_edit = .raises
        ∨ env.images_edit = .returns { data := [] }
        ∨ ∃ du rest, env.images_edit
            = .returns { data := { b64_json := none, url := du } :: rest }) →
      (∃ e, (main env args).2 = .error e)
      ∧ writtenFiles (main env args).1 = [])
    ∧ (args.engine = "dall-e-3" → env.images_generate = .raises →
      (main env args).2 = .error .apiError
      ∧ writtenFiles (main env args).1 = []
      ∧ apiCallsOf (main env args).1 = ["images.generate"])
    ∧ (∀ u : Option String, args.engine = "dall-e-3" →
      env.images_generate = .returns { data := [{ b64_json := none, url := u }] } →
      (main env args).2 = .ok ()
      ∧ writtenFiles (main env args).1 = [])
    ∧ (apiCallsOf (main env args).1).length ≤ 1 := by
  have hm := main_unfold env args k hk hk'
  refine ⟨?_, ?_, ?_, ?_⟩
  · intro heng hr
    rw [hm, heng]
    have h := generate_gpt_fatal env (introTrace args.show_midjourney_prompt)
      args.input args.sweater args.output args.user_name hr
    exact ⟨h.1, by rw [h.2, writtenFiles_introTrace]⟩
  · intro heng hr
    rw [hm, heng, generate_e3_raises env (introTrace args.show_midjourney_prompt)
      args.input args.sweater args.output args.user_name hr]
    refine ⟨rfl, ?_, ?_⟩
    · simp only [writtenFiles_append, writtenFiles_introTrace]; rfl
    · simp only [apiCallsOf_append, apiCallsOf_introTrace]; rfl
  · intro u heng hr
    rw [hm, heng, generate_e3_url_only env (introTrace args.show_midjourney_prompt)
      args.input args.sweater args.output args.user_name u [] hr]
    refine ⟨rfl, ?_⟩
    simp only [writtenFiles_append, writtenFiles_introTrace]
    rfl
  · rw [hm]
    have h := generate_api_once env (introTrace args.show_midjourney_prompt)
      args.input args.sweater args.engine args.output args.user_name
    rw [apiCallsOf_introTrace] at h
    simpa using h

/-- C4 (witness): the amended statement applied concretely — a gpt-image-1
response with no base64 payload is fatal with no output, while the URL-only
dall-e-3 environment terminates normally with no output, making at most one
API call. -/
theorem c4_witness :
    ((∃ e, (main envEditNoPayload args1).2 = .error e)
      ∧ writtenFiles (main envEditNoPayload args1).1 = [])
    ∧ ((main envUrlOnly argsE3).2 = .ok ()
      ∧ writtenFiles (main envUrlOnly argsE3).1 = [])
    ∧ (apiCallsOf (main envUrlOnly argsE3).1).length ≤ 1 :=
  ⟨(c4_fatal_api envEditNoPayload args1 "sk-test" rfl (by decide)).1 rfl
      (Or.inr (Or.inr ⟨none, [], rfl⟩)),
   (c4_fatal_api envUrlOnly argsE3 "sk-test" rfl (by decide)).2.2.1
      (some "https://example.com/poster.png") rfl rfl,
   (c4_fatal_api envUrlOnly argsE3 "sk-test" rfl (by decide)).2.2.2⟩

/-- C5 (counterexample): the claim says a run whose source image path does
not exist fails with a FileNotFound-class error before producing output. With
`--engine dall-e-3` the source image is never opened: the run succeeds and
writes the poster even though the input path does not exist. -/
theorem c5_counterexample :
    envGenHappy.fs "missing.png" = none
    ∧ argsE3.input = "missing.png"
    ∧ (main envGenHappy argsE3).2 = .ok ()
    ∧ writtenFiles (main envGenHappy argsE3).1
        = [("output/home_alone_poster.png", payloadImg)] := ⟨rfl, rfl, rfl, rfl⟩

/-- C5 (amended): in the gpt-image-1 engine path (the default), a source
image path that cannot be read makes the run fail with `FileNotFoundError`
before any API call is made and before any output file is produced. -/
theorem c5_gpt_missing_input (env : Env) (args : Args) (k : String)
    (hk : env.getenv "OPENAI_API_KEY" = some k) (hk' : k ≠ "")
    (heng : args.engine = "gpt-image-1")
    (hfs : env.fs args.input = none) :
    (main env args).2 = .error (.fileNotFoundError args.input)
    ∧ writtenFiles (main env args).1 = []
    ∧ apiCallsOf (main env args).1 = [] := by
  have hgen : main env args
      = (introTrace args.show_midjourney_prompt, .error (.fileNotFoundError args.input)) := by
    rw [main_unfold env args k hk hk', heng]
    simp only [generate_home_alone_poster_openai, if_true]
    simp only [load_and_optionally_resize, hfs]
  rw [hgen]
  exact ⟨rfl, writtenFiles_introTrace _, apiCallsOf_introTrace _⟩

/-- C5 (witness): the amended statement on a concrete environment whose file
system is empty, with the default gpt-image-1 engine. -/
theorem c5_witness :
    (main envUrlOnly args1).2 = .error (.fileNotFoundError "me.png")
    ∧ writtenFiles (main envUrlOnly args1).1 = []
    ∧ apiCallsOf (main envUrlOnly args1).1 = [] :=
  c5_gpt_missing_input envUrlOnly args1 "sk-test" rfl (by decide) rfl rfl

/-- C6 (counterexample): the claim says the CLI has a flag to skip the
remote-generation stage and numeric overrides for threshold, blur radius,
target width, and vertical offset. The parser defines exactly six options —
none of them numeric overrides — whose only store-true flag is
`--show-midjourney-prompt`; and a run with that flag set still performs the
remote generation call and writes the API result, so nothing skips the
generation stage. -/
theorem c6_counterexample :
    (mainArgumentSpecs.map (fun a => a.flag))
      = ["--input", "--sweater", "--output", "--engine", "--user-name",
         "--show-midjourney-prompt"]
    ∧ (∀ a ∈ mainArgumentSpecs, a.storeTrue = true →
         a.flag = "--show-midjourney-prompt")
    ∧ (main envHappyEdit argsShow).2 = .ok ()
    ∧ apiCallsOf (main envHappyEdit argsShow).1 = ["images.edit"]
    ∧ writtenFiles (main envHappyEdit argsShow).1
        = [("output/home_alone_poster.png", payloadImg)] := by
  refine ⟨rfl, ?_, rfl, rfl, rfl⟩
  decide

/-- C6 (amended): the command-line surface accepts a required user-photo
path (`--input`), an optional sweater reference path, an output path
defaulting to `output/home_alone_poster.png`, an engine choice between
gpt-image-1 and dall-e-3, an optional user name for the prompt, and a
`--show-midjourney-prompt` flag; it has no other option — in particular no
skip-generation flag and no numeric overrides for a chroma-key threshold,
blur radius, target width, or vertical placement offset. -/
theorem c6_cli_surface :
    (∃ a ∈ mainArgumentSpecs, a.flag = "--input" ∧ a.required = true)
    ∧ (∃ a ∈ mainArgumentSpecs, a.flag = "--sweater" ∧ a.required = false)
    ∧ (∃ a ∈ mainArgumentSpecs, a.flag = "--output"
         ∧ a.dflt = some "output/home_alone_poster.png")
    ∧ (∃ a ∈ mainArgumentSpecs, a.flag = "--engine"
         ∧ a.choices = some ["gpt-image-1", "dall-e-3"])
    ∧ (∃ a ∈ mainArgumentSpecs, a.flag = "--user-name")
    ∧ (∃ a ∈ mainArgumentSpecs, a.flag = "--show-midjourney-prompt"
         ∧ a.storeTrue = true)
    ∧ (∀ a ∈ mainArgumentSpecs,
        a.flag = "--input" ∨ a.flag = "--sweater" ∨ a.flag = "--output"
        ∨ a.flag = "--engine" ∨ a.flag = "--user-name"
        ∨ a.flag = "--show-midjourney-prompt")
    ∧ (∀ a ∈ mainArgumentSpecs, a.storeTrue = true →
        a.flag = "--show-midjourney-prompt") := by
  decide

/-- C8: the input-image loader never upscales — when the longest side is at
most 1536 the pixel dimensions are unchanged, otherwise both dimensions are
floor-scaled by 1536 / max(w, h) so the longest side is at most 1536 — and
the output is converted to RGB and re-encoded as PNG. -/
theorem c8_loader (env : Env) (t : Trace) (path : String) (ub : PyBytes)
    (ui : PILImage) (hfs : env.fs path = some ub) (hdec : env.decode ub = some ui)
    (hpos : 0 < max ui.width ui.height) :
    ∃ buf : BytesIOBuf,
      load_and_optionally_resize env t path = (t ++ [.openedInput path], .ok buf)
      ∧ buf.format = "PNG"
      ∧ buf.img.mode = "RGB"
      ∧ (max ui.width ui.height ≤ 1536 →
          buf.img.width = ui.width ∧ buf.img.height = ui.height)
      ∧ (1536 < max ui.width ui.height →
          buf.img.width = ui.width * 1536 / max ui.width ui.height
          ∧ buf.img.height = ui.height * 1536 / max ui.width ui.height)
      ∧ buf.img.width ≤ ui.width
      ∧ buf.img.height ≤ ui.height
      ∧ max buf.img.width buf.img.height ≤ 1536 :=
  load_spec env t path ub ui hfs hdec hpos

/-- C8 (witness): a 3000x2000 source is floor-scaled to 1536x1024, RGB, PNG. -/
theorem c8_witness :
    envBig.fs "big.png" = some [9]
    ∧ envBig.decode [9]
        = some { mode := "L", width := 3000, height := 2000, data := .decoded [9] }
    ∧ 0 < max 3000 2000
    ∧ (∃ buf : BytesIOBuf,
        load_and_optionally_resize envBig [] "big.png"
          = ([] ++ [.openedInput "big.png"], .ok buf)
        ∧ buf.format = "PNG"
        ∧ buf.img.mode = "RGB"
        ∧ (max 3000 2000 ≤ 1536 → buf.img.width = 3000 ∧ buf.img.height = 2000)
        ∧ (1536 < max 3000 2000 →
            buf.img.width = 3000 * 1536 / max 3000 2000
            ∧ buf.img.height = 2000 * 1536 / max 3000 2000)
        ∧ buf.img.width ≤ 3000
        ∧ buf.img.height ≤ 2000
        ∧ max buf.img.width buf.img.height ≤ 1536) :=
  ⟨rfl, rfl, by decide,
   c8_loader envBig [] "big.png" [9]
     { mode := "L", width := 3000, height := 2000, data := .decoded [9] }
     rfl rfl (by decide)⟩

/-- C9: saving fails when the output path has no directory component —
`os.path.dirname` yields the empty string and `os.makedirs("", exist_ok=True)`
raises `FileNotFoundError`, so no file is written — while for an output path
with a directory component the parent directory is created (the `madeDirs`
event) strictly before the file write. -/
theorem c9_save_dirname (env : Env) (t : Trace) (s : String) (bs : PyBytes)
    (img : PILImage) (p : String)
    (hb : env.b64decode s = some bs) (hd : env.decode bs = some img) :
    (dirname p = "" →
      save_base64_image env t (some s) p = (t, .error (.fileNotFoundError ""))
      ∧ writtenFiles (save_base64_image env t (some s) p).1 = writtenFiles t)
    ∧ (dirname p ≠ "" →
      save_base64_image env t (some s) p
        = (t ++ [.madeDirs (dirname p), .wroteFile p img,
                 .printed ("✅ Saved generated poster to: " ++ p)], .ok ())) := by
  obtain ⟨h1, h2⟩ := save_spec env t s bs img p hb hd
  exact ⟨fun h => ⟨h1 h, by rw [h1 h]⟩, h2⟩

/-- C9 (witness): the bare filename `poster.png` makes the save raise with
nothing written, while `output/home_alone_poster.png` creates `output` and
then writes the file. -/
theorem c9_witness :
    (dirname "poster.png" = ""
     ∧ save_base64_image envHappyEdit [] (some payloadB64) "poster.png"
         = ([], .error (.fileNotFoundError ""))
     ∧ writtenFiles (save_base64_image envHappyEdit [] (some payloadB64) "poster.png").1
         = [])
    ∧ (dirname "output/home_alone_poster.png" = "output"
       ∧ save_base64_image envHappyEdit [] (some payloadB64) "output/home_alone_poster.png"
           = ([.madeDirs "output",
               .wroteFile "output/home_alone_poster.png" payloadImg,
               .printed ("✅ Saved generated poster to: output/home_alone_poster.png")],
              .ok ())) := by
  have h1 := (c9_save_dirname envHappyEdit [] payloadB64 payloadBytes payloadImg
    "poster.png" rfl rfl).1 (by decide)
  have h2 := (c9_save_dirname envHappyEdit [] payloadB64 payloadBytes payloadImg
    "output/home_alone_poster.png" rfl rfl).2 (by decide)
  exact ⟨⟨by decide, h1.1, h1.2⟩, by decide, h2⟩

/-- C10: when OPENAI_API_KEY is unset or empty, `main` raises the
`RuntimeError` after argument parsing (it takes parsed `Args`) and its trace
contains no input-file open, no API call, and no file write. -/
theorem c10_key_guard (env : Env) (args : Args)
    (h : env.getenv "OPENAI_API_KEY" = none
         ∨ env.getenv "OPENAI_API_KEY" = some "") :
    (main env args).2
      = .error (.runtimeError "OPENAI_API_KEY environment variable is not set.")
    ∧ writtenFiles (main env args).1 = []
    ∧ apiCallsOf (main env args).1 = []
    ∧ openedInputsOf (main env args).1 = [] := by
  have hm : main env args
      = (introTrace args.show_midjourney_prompt,
         .error (.runtimeError "OPENAI_API_KEY environment variable is not set.")) := by
    unfold main
    rcases h with h | h
    · rw [h]
    · rw [h]; rfl
  rw [hm]
  exact ⟨rfl, writtenFiles_introTrace _, apiCallsOf_introTrace _,
    openedInputsOf_introTrace _⟩

/-- C10 (witness): the key guard on a concrete keyless environment. -/
theorem c10_witness :
    (main envKeyless args1).2
      = .error (.runtimeError "OPENAI_API_KEY environment variable is not set.")
    ∧ writtenFiles (main envKeyless args1).1 = []
    ∧ apiCallsOf (main envKeyless args1).1 = []
    ∧ openedInputsOf (main envKeyless args1).1 = [] :=
  c10_key_guard envKeyless args1 (Or.inl rfl)

end HomeAlone
